import Mathlib

/-!
Shallow embedding of `aws-free.py`, a command-line tool managing the
lifecycle of a single AWS EC2 free-tier instance.  Pure data and control
flow are translated directly from the source; the cloud provider, local
filesystem and interactive prompts are modelled as explicit state and
input parameters threaded through the functions.
-/

set_option autoImplicit false

namespace AwsFree

/-- Lifecycle states of an instance as they appear in the source
(filter value lists and state comparisons): pending, running, stopping,
stopped and terminated. -/
inductive InstState where
  | pending
  | running
  | stopping
  | stopped
  | terminated
deriving DecidableEq, Repr

/-- An instance record as consumed by the tool: the fields the script
reads from a `describe_instances` response. -/
structure Instance where
  instanceId : String
  instanceType : String
  state : InstState
  publicIp : Option String
  keyName : Option String
  nameTag : Option String
deriving DecidableEq, Repr

/-- Local filesystem for key files: an association list from path to
permission bits (as a natural number, e.g. 0o600 = 384, 0o644 = 420). -/
abbrev FS := List (String × Nat)

/-- Write a file at a path with given permission bits, replacing any
previous entry at that path. -/
def fsSet (fs : FS) (p : String) (perm : Nat) : FS :=
  (p, perm) :: fs.filter (fun e => !(e.1 == p))

/-- Remove the file at a path (`os.remove`), a no-op when absent. -/
def fsRemove (fs : FS) (p : String) : FS :=
  fs.filter (fun e => !(e.1 == p))

/-- Whether a file exists at a path (`os.path.exists`). -/
def fsExists (fs : FS) (p : String) : Bool :=
  fs.any (fun e => e.1 == p)

/-- Permission bits of the file at a path, if present. -/
def fsPerm (fs : FS) (p : String) : Option Nat :=
  (fs.find? (fun e => e.1 == p)).map (fun e => e.2)

/-- The SSH directory used for all key files (`~/.ssh`). -/
def sshDir : String := "~/.ssh/"

/-- Private key path: `os.path.join(ssh_dir, key_name)`. -/
def privPath (keyName : String) : String := sshDir ++ keyName

/-- Public key path: `os.path.join(ssh_dir, key_name + ".pub")`. -/
def pubPath (keyName : String) : String := sshDir ++ keyName ++ ".pub"

theorem privPath_ne_pubPath (k : String) : privPath k ≠ pubPath k := by
  intro h
  have hdata : (privPath k).data = (pubPath k).data := congrArg String.data h
  simp only [privPath, pubPath, String.data_append] at hdata
  have hlen := congrArg List.length hdata
  simp [List.length_append] at hlen

/-- Environment for one `create_key_pair` run: injected failure modes of
the external `ssh-keygen` call and of the provider `import_key_pair`
call, the provider key-name registry, and the permission bits the
generator leaves on the freshly written files. -/
structure KeyPairEnv where
  keygenFails : Bool
  registerFails : Bool
  awsKeys : List String
  genPrivPerm : Nat
  genPubPerm : Nat
deriving DecidableEq, Repr

/-- Observable events of a `create_key_pair` run, in execution order. -/
inductive KPEvent where
  | genKey
  | readPub
  | register
  | chmodPriv (perm : Nat)
  | chmodPub (perm : Nat)
  | removeFiles
deriving DecidableEq, BEq, Repr

/-- Result of a `create_key_pair` run: the returned value or the
propagated error, the final local filesystem, the final provider key
registry and the event trace. -/
structure KPResult where
  result : Except String String
  fs : FS
  awsKeys : List String
  events : List KPEvent
deriving Repr

/-- Embedding of `create_key_pair` (src/aws-free.py:220-277).
Generates a key pair at `privPath`/`pubPath` via `ssh-keygen`, reads the
public key, imports it to AWS (tolerating `InvalidKeyPair.Duplicate`),
then sets permissions 0o600 / 0o644 and returns the key name.  On a
generation failure or a non-duplicate import failure, the `except`
block removes both local key files and re-raises. -/
def create_key_pair (env : KeyPairEnv) (fs0 : FS) (keyName : String) : KPResult :=
  let kp := privPath keyName
  let pp := pubPath keyName
  if env.keygenFails then
    { result := Except.error "Failed to generate SSH key pair. Please install ssh-keygen"
      fs := fsRemove (fsRemove fs0 kp) pp
      awsKeys := env.awsKeys
      events := [KPEvent.genKey, KPEvent.removeFiles] }
  else
    let fs1 := fsSet (fsSet fs0 kp env.genPrivPerm) pp env.genPubPerm
    if env.registerFails then
      { result := Except.error "Failed to import key pair to AWS"
        fs := fsRemove (fsRemove fs1 kp) pp
        awsKeys := env.awsKeys
        events := [KPEvent.genKey, KPEvent.readPub, KPEvent.register, KPEvent.removeFiles] }
    else
      let keys1 := if keyName ∈ env.awsKeys then env.awsKeys else keyName :: env.awsKeys
      { result := Except.ok keyName
        fs := fsSet (fsSet fs1 kp 384) pp 420
        awsKeys := keys1
        events := [KPEvent.genKey, KPEvent.readPub, KPEvent.register,
                   KPEvent.chmodPriv 384, KPEvent.chmodPub 420] }

theorem filter_keep_of_drop (l : FS) (p : String) :
    (l.filter (fun e => !(e.1 == p))).filter (fun e => e.1 == p) = [] := by
  induction l with
  | nil => rfl
  | cons e l ih =>
    by_cases h : e.1 = p <;> simp [List.filter_cons, h, ih]

theorem filter_keep_of_drop_ne (l : FS) (p q : String) (h : q ≠ p) :
    (l.filter (fun e => !(e.1 == q))).filter (fun e => e.1 == p)
      = l.filter (fun e => e.1 == p) := by
  induction l with
  | nil => rfl
  | cons e l ih =>
    by_cases he : e.1 = q
    · simp [List.filter_cons, he, beq_eq_false_iff_ne.mpr h, ih]
    · by_cases hp : e.1 = p <;> simp [List.filter_cons, he, hp, h.symm, ih]

theorem fsExists_fsRemove_self (fs : FS) (p : String) :
    fsExists (fsRemove fs p) p = false := by
  simp only [fsExists, fsRemove, List.any_eq_false]
  intro e he
  have hkeep := (List.mem_filter.mp he).2
  simp at hkeep ⊢
  exact hkeep

theorem fsExists_fsRemove_of_ne (fs : FS) (p q : String) (h : p ≠ q) :
    fsExists (fsRemove fs q) p = fsExists fs p := by
  have hpt : ∀ a : String × Nat, (!(a.1 == q) && (a.1 == p)) = (a.1 == p) := by
    intro a
    by_cases ha : a.1 = p
    · simp [ha, beq_eq_false_iff_ne.mpr h]
    · simp [ha]
  simp [fsExists, fsRemove, hpt]

theorem filter_fsSet_self (fs : FS) (p : String) (v : Nat) :
    (fsSet fs p v).filter (fun e => e.1 == p) = [(p, v)] := by
  simp [fsSet, List.filter_cons, filter_keep_of_drop fs p]

theorem filter_fsSet_of_ne (fs : FS) (p q : String) (v : Nat) (h : q ≠ p) :
    (fsSet fs q v).filter (fun e => e.1 == p) = fs.filter (fun e => e.1 == p) := by
  simp [fsSet, List.filter_cons, beq_eq_false_iff_ne.mpr h,
    filter_keep_of_drop_ne fs p q h]

/-- An AMI as consumed by `get_latest_ubuntu_ami`: identifier, name and
creation timestamp (`CreationDate`, modelled as a natural number whose
order is the chronological order of the date strings). -/
structure Image where
  imageId : String
  name : String
  creationDate : Nat
deriving DecidableEq, Repr

/-- First of the three Ubuntu name-glob patterns tried in order. -/
def pattern1 : String := "ubuntu/images/hvm-ssd-gp3/ubuntu-noble-24.04-amd64-server-*"

/-- Second pattern. -/
def pattern2 : String := "ubuntu/images/hvm-ssd/ubuntu-noble-24.04-amd64-server-*"

/-- Third pattern, the 22.04 LTS fallback. -/
def pattern3 : String := "ubuntu/images/hvm-ssd/ubuntu-jammy-22.04-amd64-server-*"

/-- The ordered pattern list of `get_latest_ubuntu_ami`. -/
def patterns : List String := [pattern1, pattern2, pattern3]

/-- The image picked by `sorted(images, key=CreationDate, reverse=True)[0]`:
the first listed image holding the maximal creation date (Python sort is
stable, so ties keep provider order). -/
def latestImage : List Image → Option Image
  | [] => none
  | i :: is =>
    match latestImage is with
    | none => some i
    | some j => if j.creationDate > i.creationDate then some j else some i

/-- The pattern loop of `get_latest_ubuntu_ami`: for each pattern in
order, query `describe_images` (modelled by `env`, the response for each
name filter) and return the latest match of the first pattern with any
matches; raise the descriptive error when none has any. -/
def amiSearch (env : String → List Image) : List String → Except String (String × String)
  | [] => Except.error "No Ubuntu Server LTS AMI found"
  | p :: ps =>
    match latestImage (env p) with
    | some img => Except.ok (img.imageId, img.name)
    | none => amiSearch env ps

/-- Embedding of `get_latest_ubuntu_ami` (src/aws-free.py:188-217). -/
def get_latest_ubuntu_ami (env : String → List Image) : Except String (String × String) :=
  amiSearch env patterns

/-- One ingress permission entry of a security group. -/
structure IngressRule where
  ipProtocol : String
  fromPort : Nat
  toPort : Nat
  cidrIp : String
deriving DecidableEq, Repr

/-- A provider-side security group. -/
structure SecurityGroup where
  groupName : String
  groupId : String
  ingress : List IngressRule
deriving DecidableEq, Repr

/-- Provider security-group state: the groups of the account/region and
the identifier the provider would assign to the next created group. -/
structure SGState where
  groups : List SecurityGroup
  freshId : String
deriving DecidableEq, Repr

/-- The fixed well-known group name used by the tool. -/
def sgName : String := "ec2-free-tier-sg"

/-- The single ingress rule the tool authorizes: TCP/22 from anywhere. -/
def sshRule : IngressRule :=
  { ipProtocol := "tcp", fromPort := 22, toPort := 22, cidrIp := "0.0.0.0/0" }

/-- Lookup by group name (`describe_security_groups(GroupNames=[...])`);
`none` models the `InvalidGroup.NotFound` error. -/
def describe_security_groups (s : SGState) : Option SecurityGroup :=
  s.groups.find? (fun g => g.groupName == sgName)

/-- Embedding of `authorize_security_group_ingress`: append the rule to
the group with the given identifier. -/
def authorize_ingress (s : SGState) (gid : String) (r : IngressRule) : SGState :=
  { s with
    groups := s.groups.map (fun g =>
      if g.groupId == gid then { g with ingress := g.ingress ++ [r] } else g) }

/-- Embedding of `create_security_group` (src/aws-free.py:280-319).
Returns the identifier of the existing group when the lookup succeeds;
otherwise creates the group, authorizes the SSH ingress rule and returns
the fresh identifier. -/
def create_security_group (s : SGState) : String × SGState :=
  match describe_security_groups s with
  | some g => (g.groupId, s)
  | none =>
    let gid := s.freshId
    let s1 : SGState :=
      { groups := s.groups ++ [{ groupName := sgName, groupId := gid, ingress := [] }]
        freshId := s.freshId ++ "-next" }
    (gid, authorize_ingress s1 gid sshRule)

/-- Number of groups carrying the well-known name. -/
def countSgName (s : SGState) : Nat :=
  (s.groups.filter (fun g => g.groupName == sgName)).length

/-- The existing-instance query of `launch_instance`
(src/aws-free.py:591-601): instances of type `t3.micro` whose state is
in the filter list `pending, running, stopping, stopped`. -/
def existingFreeTier (world : List Instance) : List Instance :=
  world.filter (fun i =>
    i.instanceType == "t3.micro"
      && [InstState.pending, InstState.running,
          InstState.stopping, InstState.stopped].contains i.state)

/-- Python `str.lower()` on the character sequence. -/
def pyLower (s : String) : String := ⟨s.data.map Char.toLower⟩

/-- Python `str.strip()`: drop whitespace from both ends. -/
def pyStrip (s : String) : String :=
  ⟨((s.data.dropWhile (fun c => c.isWhitespace)).reverse.dropWhile
      (fun c => c.isWhitespace)).reverse⟩

/-- Whether a prompt reply counts as yes: `strip().lower()` lands in
`['y', 'yes', '']`. -/
def isYes (s : String) : Bool :=
  let c := pyLower (pyStrip s)
  c == "y" || c == "yes" || c == ""

/-- Environment of one `launch_instance` run: provider inventory, local
filesystem, key-pair provisioning environment, AMI query responses,
security-group state, the raw reply to the create-key prompt, and the
identifier the provider assigns to the launched instance. -/
structure LaunchEnv where
  world : List Instance
  fs : FS
  kpEnv : KeyPairEnv
  amiEnv : String → List Image
  sg : SGState
  createKeyReply : String
  freshInstanceId : String

/-- Terminal outcome of `launch_instance`: the free-tier gate returning
`None`, the AMI resolution error (the process then exits non-zero), or a
successful launch returning the new instance id. -/
inductive LaunchOutcome where
  | blocked
  | amiError (msg : String)
  | launched (instanceId : String)
deriving DecidableEq, Repr

/-- Full observable result of a `launch_instance` run. -/
structure LaunchRun where
  outcome : LaunchOutcome
  ranInstances : Bool
  conflictsShown : List Instance
  usedKeyName : Option String
  fs : FS
  sg : SGState

/-- The value `launch_instance` returns: the created instance id, or
`None` when the free-tier gate blocked the launch. -/
def createdInstance (r : LaunchRun) : Option String :=
  match r.outcome with
  | LaunchOutcome.launched i => some i
  | _ => none

/-- Embedding of `launch_instance` (src/aws-free.py:583-734).  Step 1 is
the free-tier gate: when any `t3.micro` instance is in a non-terminated
state, print the conflicts and return `None` before any further call.
Otherwise resolve or provision a key pair, resolve the AMI, ensure the
security group and issue the single `run_instances` request. -/
def launch_instance (env : LaunchEnv) (keyName : Option String) : LaunchRun :=
  let existing := existingFreeTier env.world
  if existing.isEmpty = false then
    { outcome := LaunchOutcome.blocked
      ranInstances := false
      conflictsShown := existing
      usedKeyName := none
      fs := env.fs
      sg := env.sg }
  else
    let resolved : Option String × FS :=
      match keyName with
      | some k => (some k, env.fs)
      | none =>
        if fsExists env.fs (privPath "aws_ec2_free")
            && fsExists env.fs (pubPath "aws_ec2_free") then
          (some "aws_ec2_free", env.fs)
        else if isYes env.createKeyReply then
          let r := create_key_pair env.kpEnv env.fs "aws_ec2_free"
          match r.result with
          | Except.ok k => (some k, r.fs)
          | Except.error _ => (none, r.fs)
        else (none, env.fs)
    match get_latest_ubuntu_ami env.amiEnv with
    | Except.error m =>
      { outcome := LaunchOutcome.amiError m
        ranInstances := false
        conflictsShown := []
        usedKeyName := resolved.1
        fs := resolved.2
        sg := env.sg }
    | Except.ok _ =>
      let sgRun := create_security_group env.sg
      { outcome := LaunchOutcome.launched env.freshInstanceId
        ranInstances := true
        conflictsShown := []
        usedKeyName := resolved.1
        fs := resolved.2
        sg := sgRun.2 }

/-- Outcome of a `delete_instance` run. -/
inductive DeleteOutcome where
  | notFound
  | alreadyTerminated
  | cancelled
  | terminationInitiated
deriving DecidableEq, Repr

/-- Observable result of a `delete_instance` run: whether the
confirmation prompt was shown and whether `terminate_instances` was
called. -/
structure DeleteRun where
  outcome : DeleteOutcome
  prompted : Bool
  terminateRequested : Bool
deriving DecidableEq, Repr

/-- Embedding of `delete_instance` (src/aws-free.py:520-580).  Fetch the
record; an already-terminated target is reported and the function
returns before the confirmation prompt and before any
`terminate_instances` call.  Otherwise prompt; only `n`/`no` cancels. -/
def delete_instance (world : List Instance) (instanceId : String)
    (confirmReply : String) : DeleteRun :=
  match world.find? (fun i => i.instanceId == instanceId) with
  | none =>
    { outcome := DeleteOutcome.notFound, prompted := false, terminateRequested := false }
  | some i =>
    if i.state == InstState.terminated then
      { outcome := DeleteOutcome.alreadyTerminated
        prompted := false
        terminateRequested := false }
    else
      let c := pyLower (pyStrip confirmReply)
      if c == "n" || c == "no" then
        { outcome := DeleteOutcome.cancelled, prompted := true, terminateRequested := false }
      else
        { outcome := DeleteOutcome.terminationInitiated
          prompted := true
          terminateRequested := true }

/-- Outcome of an `ssh_to_instance` run. -/
inductive SshOutcome where
  | noneRunning
  | notFound
  | notRunning (st : InstState)
  | noPublicIp
  | noKeyPair
  | keyFileMissing (path : String)
  | connected (keyPath : String) (ip : String)
deriving DecidableEq, Repr

/-- Observable result of an `ssh_to_instance` run: the instances printed
by the auto-select table, the instance id the run settled on, the
outcome, and the process exit status of the command. -/
structure SshResult where
  displayed : List Instance
  target : Option String
  outcome : SshOutcome
  exitCode : Nat
deriving DecidableEq, Repr

/-- The per-instance part of `ssh_to_instance` once an id is fixed
(src/aws-free.py:419-471): describe the instance (an unknown id raises
`InvalidInstanceID.NotFound`, caught and followed by `sys.exit(1)`),
then check state, public address, key-pair name and local key file; each
of those checks prints guidance and returns normally. -/
def sshConnect (world : List Instance) (localFiles : FS) (instanceId : String)
    (displayed : List Instance) : SshResult :=
  match world.find? (fun i => i.instanceId == instanceId) with
  | none =>
    { displayed := displayed, target := some instanceId
      outcome := SshOutcome.notFound, exitCode := 1 }
  | some i =>
    if i.state = InstState.running then
      match i.publicIp with
      | none =>
        { displayed := displayed, target := some instanceId
          outcome := SshOutcome.noPublicIp, exitCode := 0 }
      | some ip =>
        match i.keyName with
        | none =>
          { displayed := displayed, target := some instanceId
            outcome := SshOutcome.noKeyPair, exitCode := 0 }
        | some kn =>
          if fsExists localFiles (privPath kn) then
            { displayed := displayed, target := some instanceId
              outcome := SshOutcome.connected (privPath kn) ip, exitCode := 0 }
          else
            { displayed := displayed, target := some instanceId
              outcome := SshOutcome.keyFileMissing (privPath kn), exitCode := 0 }
    else
      { displayed := displayed, target := some instanceId
        outcome := SshOutcome.notRunning i.state, exitCode := 0 }

/-- Embedding of `ssh_to_instance` (src/aws-free.py:371-481).  With no
id, query the running instances: zero prints "No running instances
found" and returns; otherwise the list is printed in the table format
and the first instance is used. -/
def ssh_to_instance (world : List Instance) (localFiles : FS)
    (instanceId : Option String) : SshResult :=
  match instanceId with
  | some iid => sshConnect world localFiles iid []
  | none =>
    match world.filter (fun i => i.state == InstState.running) with
    | [] =>
      { displayed := [], target := none
        outcome := SshOutcome.noneRunning, exitCode := 0 }
    | r :: rest => sshConnect world localFiles r.instanceId (r :: rest)

/-- The recognized command tokens of the dispatcher
(src/aws-free.py:770). -/
def commandTokens : List String :=
  ["list", "create", "delete", "ssh", "key", "web", "instances",
   "console", "dashboard", "help", "-h", "--help"]

/-- The action the dispatcher hands control to. -/
inductive Action where
  | help
  | listInstances
  | deleteFlow
  | sshFlow (instanceId : Option String)
  | openKeyConsole
  | openInstanceConsole
  | createFlow (keyName : Option String)
deriving DecidableEq, Repr

/-- Embedding of the argument dispatch in `main`
(src/aws-free.py:768-921), over `sys.argv[1:]`.  More than one
recognized token prints the usage text and returns; a single
unrecognized token is the backward-compatible key-name alias for
`create`. -/
def dispatch (args : List String) : Action :=
  match args with
  | [] => Action.help
  | a :: rest =>
    if ((a :: rest).filter (fun x => commandTokens.contains (pyLower x))).length > 1 then
      Action.help
    else
      let c := pyLower a
      if c == "-h" || c == "--help" || c == "help" then Action.help
      else if c == "list" then Action.listInstances
      else if c == "delete" then Action.deleteFlow
      else if c == "ssh" then Action.sshFlow rest.head?
      else if c == "key" then Action.openKeyConsole
      else if c == "dashboard" || c == "console" || c == "instances" || c == "web" then
        Action.openInstanceConsole
      else if c == "create" then Action.createFlow rest.head?
      else Action.createFlow (some a)

/-- Process-level run of `main`: the help paths return directly from
`main` and the process exits with status 0; every other action hands
control to its flow, whose exit status depends on the environment and is
supplied by `flowExit`. -/
def mainRun (args : List String) (flowExit : Action → Nat) : Action × Nat :=
  match dispatch args with
  | Action.help => (Action.help, 0)
  | a => (a, flowExit a)

/-- A keypair environment with no injected failure and an empty provider
registry. -/
def kpEnvOk : KeyPairEnv :=
  { keygenFails := false, registerFails := false, awsKeys := []
    genPrivPerm := 384, genPubPerm := 420 }

/-- A keypair environment where the name is already registered with the
provider. -/
def kpEnvDup : KeyPairEnv :=
  { keygenFails := false, registerFails := false, awsKeys := ["aws_ec2_free"]
    genPrivPerm := 384, genPubPerm := 420 }

/-- A keypair environment where the provider import fails for a reason
other than a duplicate name. -/
def kpEnvRegFail : KeyPairEnv :=
  { keygenFails := false, registerFails := true, awsKeys := []
    genPrivPerm := 384, genPubPerm := 420 }

/-- A running free-tier instance used as a concrete witness input. -/
def instRunning : Instance :=
  { instanceId := "i-0abc", instanceType := "t3.micro"
    state := InstState.running, publicIp := some "35.1.2.3"
    keyName := some "aws_ec2_free", nameTag := some "free-tier" }

/-- A launch environment whose inventory already holds `instRunning`. -/
def c1Env : LaunchEnv :=
  { world := [instRunning], fs := [], kpEnv := kpEnvOk
    amiEnv := fun _ => [], sg := { groups := [], freshId := "sg-1" }
    createKeyReply := "", freshInstanceId := "i-new" }

/-- C1: whenever at least one instance of the managed type `t3.micro`
exists in a non-terminated lifecycle state, `launch_instance` does not
issue a `run_instances` request, returns no created instance (`None`),
and the conflicting instances are the ones printed. -/
theorem C1_free_tier_gate (env : LaunchEnv) (keyName : Option String) (i : Instance)
    (hmem : i ∈ env.world) (htype : i.instanceType = "t3.micro")
    (hstate : i.state ≠ InstState.terminated) :
    (launch_instance env keyName).ranInstances = false
    ∧ createdInstance (launch_instance env keyName) = none
    ∧ (launch_instance env keyName).conflictsShown = existingFreeTier env.world := by
  have hpred : (i.instanceType == "t3.micro"
      && [InstState.pending, InstState.running, InstState.stopping,
          InstState.stopped].contains i.state) = true := by
    cases hst : i.state <;> simp_all [htype]
  have hmemf : i ∈ existingFreeTier env.world :=
    List.mem_filter.mpr ⟨hmem, hpred⟩
  have hne : (existingFreeTier env.world).isEmpty = false := by
    cases hE : existingFreeTier env.world with
    | nil => rw [hE] at hmemf; exact absurd hmemf (List.not_mem_nil i)
    | cons a l => rfl
  refine ⟨?_, ?_, ?_⟩ <;> simp [launch_instance, hne, createdInstance]

/-- Witness for C1 at a concrete environment holding one running
`t3.micro` instance. -/
theorem C1_free_tier_gate_witness :
    (launch_instance c1Env none).ranInstances = false
    ∧ createdInstance (launch_instance c1Env none) = none
    ∧ (launch_instance c1Env none).conflictsShown = existingFreeTier c1Env.world :=
  C1_free_tier_gate c1Env none instRunning (by decide) rfl (by decide)

/-- The ordering the spec asserts for `create_key_pair`: every
permission-setting event precedes every read-public-key or
provider-registration event. -/
def specChmodFirst (ev : List KPEvent) : Prop :=
  ∀ i j : Fin ev.length,
    (ev.get i = KPEvent.chmodPriv 384 ∨ ev.get i = KPEvent.chmodPub 420) →
    (ev.get j = KPEvent.readPub ∨ ev.get j = KPEvent.register) →
    (i : Nat) < (j : Nat)

/-- C3 counterexample: on a successful concrete run of
`create_key_pair` the chmod events occur, yet they follow the
read-public-key and registration events, so the claimed step order is
false. -/
theorem C3_counterexample :
    (∃ i : Fin (create_key_pair kpEnvOk [] "aws_ec2_free").events.length,
        (create_key_pair kpEnvOk [] "aws_ec2_free").events.get i = KPEvent.chmodPriv 384)
    ∧ ¬ specChmodFirst (create_key_pair kpEnvOk [] "aws_ec2_free").events := by
  constructor
  · exact ⟨⟨3, by decide⟩, by decide⟩
  · intro h
    have := h ⟨3, by decide⟩ ⟨1, by decide⟩ (Or.inl (by decide)) (Or.inl (by decide))
    exact absurd this (by decide)

/-- C3 (amended): on every successful `create_key_pair` run the private
key file ends with owner-only permissions 0600 and the public key file
with world-readable permissions 0644, and the name is registered with
the provider — but the permissions are set after the public key is read
and registration is attempted, as the final step before returning, not
before. -/
theorem C3_amended_perms_after_registration (env : KeyPairEnv) (fs0 : FS) (k : String)
    (hg : env.keygenFails = false) (hr : env.registerFails = false) :
    (create_key_pair env fs0 k).result = Except.ok k
    ∧ (create_key_pair env fs0 k).fs.filter (fun e => e.1 == privPath k)
        = [(privPath k, 384)]
    ∧ (create_key_pair env fs0 k).fs.filter (fun e => e.1 == pubPath k)
        = [(pubPath k, 420)]
    ∧ k ∈ (create_key_pair env fs0 k).awsKeys
    ∧ (create_key_pair env fs0 k).events
        = [KPEvent.genKey, KPEvent.readPub, KPEvent.register,
           KPEvent.chmodPriv 384, KPEvent.chmodPub 420] := by
  have hne := privPath_ne_pubPath k
  refine ⟨?_, ?_, ?_, ?_, ?_⟩
  · simp [create_key_pair, hg, hr]
  · have hfs : (create_key_pair env fs0 k).fs
        = fsSet (fsSet (fsSet (fsSet fs0 (privPath k) env.genPrivPerm)
            (pubPath k) env.genPubPerm) (privPath k) 384) (pubPath k) 420 := by
      simp [create_key_pair, hg, hr]
    rw [hfs, filter_fsSet_of_ne _ _ _ _ (Ne.symm hne), filter_fsSet_self]
  · have hfs : (create_key_pair env fs0 k).fs
        = fsSet (fsSet (fsSet (fsSet fs0 (privPath k) env.genPrivPerm)
            (pubPath k) env.genPubPerm) (privPath k) 384) (pubPath k) 420 := by
      simp [create_key_pair, hg, hr]
    rw [hfs, filter_fsSet_self]
  · by_cases hdup : k ∈ env.awsKeys <;> simp [create_key_pair, hg, hr, hdup]
  · simp [create_key_pair, hg, hr]

/-- Witness for the amended C3 at a concrete environment. -/
theorem C3_amended_witness :
    (create_key_pair kpEnvOk [] "aws_ec2_free").result = Except.ok "aws_ec2_free"
    ∧ (create_key_pair kpEnvOk [] "aws_ec2_free").fs.filter
        (fun e => e.1 == privPath "aws_ec2_free") = [(privPath "aws_ec2_free", 384)]
    ∧ (create_key_pair kpEnvOk [] "aws_ec2_free").fs.filter
        (fun e => e.1 == pubPath "aws_ec2_free") = [(pubPath "aws_ec2_free", 420)]
    ∧ "aws_ec2_free" ∈ (create_key_pair kpEnvOk [] "aws_ec2_free").awsKeys
    ∧ (create_key_pair kpEnvOk [] "aws_ec2_free").events
        = [KPEvent.genKey, KPEvent.readPub, KPEvent.register,
           KPEvent.chmodPriv 384, KPEvent.chmodPub 420] :=
  C3_amended_perms_after_registration kpEnvOk [] "aws_ec2_free" rfl rfl

/-- C4: when key generation fails, or provider registration fails for a
reason other than a duplicate name, `create_key_pair` propagates an
error and neither the private nor the public key file for that name
remains on disk. -/
theorem C4_partial_failure_cleanup (env : KeyPairEnv) (fs0 : FS) (k : String)
    (h : env.keygenFails = true ∨ env.registerFails = true) :
    (∃ m, (create_key_pair env fs0 k).result = Except.error m)
    ∧ fsExists (create_key_pair env fs0 k).fs (privPath k) = false
    ∧ fsExists (create_key_pair env fs0 k).fs (pubPath k) = false := by
  have hne := privPath_ne_pubPath k
  by_cases hg : env.keygenFails = true
  · refine ⟨⟨"Failed to generate SSH key pair. Please install ssh-keygen", ?_⟩, ?_, ?_⟩
    · simp [create_key_pair, hg]
    · have hfs : (create_key_pair env fs0 k).fs
          = fsRemove (fsRemove fs0 (privPath k)) (pubPath k) := by
        simp [create_key_pair, hg]
      rw [hfs, fsExists_fsRemove_of_ne _ _ _ hne]
      exact fsExists_fsRemove_self fs0 (privPath k)
    · have hfs : (create_key_pair env fs0 k).fs
          = fsRemove (fsRemove fs0 (privPath k)) (pubPath k) := by
        simp [create_key_pair, hg]
      rw [hfs]
      exact fsExists_fsRemove_self _ (pubPath k)
  · have hgf : env.keygenFails = false := by
      cases hb : env.keygenFails
      · rfl
      · exact absurd hb hg
    have hr : env.registerFails = true := by
      rcases h with h1 | h2
      · exact absurd h1 hg
      · exact h2
    refine ⟨⟨"Failed to import key pair to AWS", ?_⟩, ?_, ?_⟩
    · simp [create_key_pair, hgf, hr]
    · have hfs : (create_key_pair env fs0 k).fs
          = fsRemove (fsRemove (fsSet (fsSet fs0 (privPath k) env.genPrivPerm)
              (pubPath k) env.genPubPerm) (privPath k)) (pubPath k) := by
        simp [create_key_pair, hgf, hr]
      rw [hfs, fsExists_fsRemove_of_ne _ _ _ hne]
      exact fsExists_fsRemove_self _ (privPath k)
    · have hfs : (create_key_pair env fs0 k).fs
          = fsRemove (fsRemove (fsSet (fsSet fs0 (privPath k) env.genPrivPerm)
              (pubPath k) env.genPubPerm) (privPath k)) (pubPath k) := by
        simp [create_key_pair, hgf, hr]
      rw [hfs]
      exact fsExists_fsRemove_self _ (pubPath k)

/-- Witness for C4 at a concrete environment where the provider import
fails with a non-duplicate error. -/
theorem C4_partial_failure_cleanup_witness :
    (∃ m, (create_key_pair kpEnvRegFail [] "k1").result = Except.error m)
    ∧ fsExists (create_key_pair kpEnvRegFail [] "k1").fs (privPath "k1") = false
    ∧ fsExists (create_key_pair kpEnvRegFail [] "k1").fs (pubPath "k1") = false :=
  C4_partial_failure_cleanup kpEnvRegFail [] "k1" (Or.inr rfl)

/-- C5: when registration fails only because the name is already
registered, `create_key_pair` does not raise: it returns the key name
as on success, leaves exactly one private and one public key file with
the enforced permission bits, and the provider registry is unchanged. -/
theorem C5_duplicate_tolerance (env : KeyPairEnv) (fs0 : FS) (k : String)
    (hg : env.keygenFails = false) (hr : env.registerFails = false)
    (hdup : k ∈ env.awsKeys) :
    (create_key_pair env fs0 k).result = Except.ok k
    ∧ (create_key_pair env fs0 k).fs.filter (fun e => e.1 == privPath k)
        = [(privPath k, 384)]
    ∧ (create_key_pair env fs0 k).fs.filter (fun e => e.1 == pubPath k)
        = [(pubPath k, 420)]
    ∧ (create_key_pair env fs0 k).awsKeys = env.awsKeys := by
  have hne := privPath_ne_pubPath k
  refine ⟨?_, ?_, ?_, ?_⟩
  · simp [create_key_pair, hg, hr]
  · have hfs : (create_key_pair env fs0 k).fs
        = fsSet (fsSet (fsSet (fsSet fs0 (privPath k) env.genPrivPerm)
            (pubPath k) env.genPubPerm) (privPath k) 384) (pubPath k) 420 := by
      simp [create_key_pair, hg, hr]
    rw [hfs, filter_fsSet_of_ne _ _ _ _ (Ne.symm hne), filter_fsSet_self]
  · have hfs : (create_key_pair env fs0 k).fs
        = fsSet (fsSet (fsSet (fsSet fs0 (privPath k) env.genPrivPerm)
            (pubPath k) env.genPubPerm) (privPath k) 384) (pubPath k) 420 := by
      simp [create_key_pair, hg, hr]
    rw [hfs, filter_fsSet_self]
  · simp [create_key_pair, hg, hr, hdup]

/-- Witness for C5 at a concrete environment whose registry already
holds the name. -/
theorem C5_duplicate_tolerance_witness :
    (create_key_pair kpEnvDup [] "aws_ec2_free").result = Except.ok "aws_ec2_free"
    ∧ (create_key_pair kpEnvDup [] "aws_ec2_free").fs.filter
        (fun e => e.1 == privPath "aws_ec2_free") = [(privPath "aws_ec2_free", 384)]
    ∧ (create_key_pair kpEnvDup [] "aws_ec2_free").fs.filter
        (fun e => e.1 == pubPath "aws_ec2_free") = [(pubPath "aws_ec2_free", 420)]
    ∧ (create_key_pair kpEnvDup [] "aws_ec2_free").awsKeys = kpEnvDup.awsKeys :=
  C5_duplicate_tolerance kpEnvDup [] "aws_ec2_free" rfl rfl (by decide)

/-- An already-terminated free-tier instance used as a witness input. -/
def instTerminated : Instance :=
  { instanceId := "i-0dead", instanceType := "t3.micro"
    state := InstState.terminated, publicIp := none
    keyName := none, nameTag := some "free-tier" }

/-- C7: invoking `delete_instance` on an instance already in the
terminated state reports it as already terminated and returns without
showing the confirmation prompt and without calling
`terminate_instances`. -/
theorem C7_terminated_noop (world : List Instance) (iid reply : String) (i : Instance)
    (hfind : world.find? (fun x => x.instanceId == iid) = some i)
    (hterm : i.state = InstState.terminated) :
    delete_instance world iid reply
      = { outcome := DeleteOutcome.alreadyTerminated, prompted := false
          terminateRequested := false } := by
  simp [delete_instance, hfind, hterm]

/-- Witness for C7 on a concrete terminated instance. -/
theorem C7_terminated_noop_witness :
    delete_instance [instTerminated] "i-0dead" "y"
      = { outcome := DeleteOutcome.alreadyTerminated, prompted := false
          terminateRequested := false } :=
  C7_terminated_noop [instTerminated] "i-0dead" "y" instTerminated (by decide) rfl

theorem latestImage_eq_none (l : List Image) : latestImage l = none ↔ l = [] := by
  cases l with
  | nil => simp [latestImage]
  | cons a l =>
    simp only [latestImage]
    cases latestImage l with
    | none => simp
    | some j => by_cases hc : j.creationDate > a.creationDate <;> simp [hc]

theorem latestImage_mem (l : List Image) (i : Image) (h : latestImage l = some i) :
    i ∈ l := by
  induction l generalizing i with
  | nil => exact absurd h (by simp [latestImage])
  | cons a l ih =>
    simp only [latestImage] at h
    cases hl : latestImage l with
    | none =>
      rw [hl] at h
      have h2 : some a = some i := h
      simp only [Option.some.injEq] at h2
      simp [← h2]
    | some j =>
      rw [hl] at h
      have h2 : (if j.creationDate > a.creationDate then some j else some a) = some i := h
      by_cases hc : j.creationDate > a.creationDate
      · rw [if_pos hc] at h2
        simp only [Option.some.injEq] at h2
        exact List.mem_cons_of_mem a (ih i (h2 ▸ hl))
      · rw [if_neg hc] at h2
        simp only [Option.some.injEq] at h2
        simp [← h2]

theorem latestImage_max (l : List Image) (i : Image) (h : latestImage l = some i) :
    ∀ x ∈ l, x.creationDate ≤ i.creationDate := by
  induction l generalizing i with
  | nil => intro x hx; exact absurd hx (List.not_mem_nil x)
  | cons a l ih =>
    simp only [latestImage] at h
    cases hl : latestImage l with
    | none =>
      rw [hl] at h
      have h2 : some a = some i := h
      simp only [Option.some.injEq] at h2
      have hnil : l = [] := (latestImage_eq_none l).mp hl
      subst hnil
      intro x hx
      simp at hx
      simp [hx, ← h2]
    | some j =>
      rw [hl] at h
      have h2 : (if j.creationDate > a.creationDate then some j else some a) = some i := h
      by_cases hc : j.creationDate > a.creationDate
      · rw [if_pos hc] at h2
        simp only [Option.some.injEq] at h2
        subst h2
        intro x hx
        rcases List.mem_cons.mp hx with hx1 | hx2
        · subst hx1; exact Nat.le_of_lt hc
        · exact ih j hl x hx2
      · rw [if_neg hc] at h2
        simp only [Option.some.injEq] at h2
        subst h2
        intro x hx
        rcases List.mem_cons.mp hx with hx1 | hx2
        · subst hx1; exact Nat.le_refl _
        · exact Nat.le_trans (ih j hl x hx2) (Nat.le_of_not_lt hc)

theorem amiSearch_skip (env : String → List Image) (ps rest : List String)
    (h : ∀ q ∈ ps, env q = []) :
    amiSearch env (ps ++ rest) = amiSearch env rest := by
  induction ps with
  | nil => rfl
  | cons p ps ih =>
    have hp : env p = [] := h p (List.mem_cons_self p ps)
    simp only [List.cons_append, amiSearch, hp, latestImage]
    exact ih (fun q hq => h q (List.mem_cons_of_mem p hq))

theorem amiSearch_all_empty (env : String → List Image) (l : List String)
    (h : ∀ q ∈ l, env q = []) :
    amiSearch env l = Except.error "No Ubuntu Server LTS AMI found" := by
  induction l with
  | nil => rfl
  | cons p ps ih =>
    have hp : env p = [] := h p (List.mem_cons_self p ps)
    simp only [amiSearch, hp, latestImage]
    exact ih (fun q hq => h q (List.mem_cons_of_mem p hq))

/-- C6: image resolution walks the fixed pattern list in order; for the
first pattern with any matches it returns the match with the most
recent creation date, drawn from that pattern only, regardless of what
later patterns would match; when every pattern matches nothing it fails
with the descriptive error. -/
theorem C6_image_fallback (env : String → List Image) (ps qs : List String) (p : String)
    (hps : ∀ q ∈ ps, env q = []) (hp : env p ≠ []) :
    (∃ img, latestImage (env p) = some img
      ∧ amiSearch env (ps ++ p :: qs) = Except.ok (img.imageId, img.name)
      ∧ img ∈ env p
      ∧ ∀ x ∈ env p, x.creationDate ≤ img.creationDate)
    ∧ ((∀ q ∈ patterns, env q = []) →
        get_latest_ubuntu_ami env = Except.error "No Ubuntu Server LTS AMI found") := by
  constructor
  · cases himg : latestImage (env p) with
    | none => exact absurd ((latestImage_eq_none (env p)).mp himg) hp
    | some img =>
      refine ⟨img, rfl, ?_, latestImage_mem _ _ himg, latestImage_max _ _ himg⟩
      rw [amiSearch_skip env ps _ hps]
      simp only [amiSearch, himg]
  · intro hall
    exact amiSearch_all_empty env patterns hall

/-- Image matched by the second pattern, older. -/
def imgOld : Image := { imageId := "ami-old", name := "noble-a", creationDate := 100 }

/-- Image matched by the second pattern, most recent there. -/
def imgNew : Image := { imageId := "ami-new", name := "noble-b", creationDate := 200 }

/-- Image matched by the third pattern, newer than both. -/
def imgHot : Image := { imageId := "ami-hot", name := "jammy-c", creationDate := 300 }

/-- Concrete AMI query responses: the first pattern matches nothing, the
second two images, the third a single newer-dated image. -/
def envC6 : String → List Image := fun s =>
  if s == pattern2 then [imgOld, imgNew]
  else if s == pattern3 then [imgHot]
  else []

/-- Witness for C6: with only the second and third patterns matching,
resolution selects the most recent match of the second pattern. -/
theorem C6_image_fallback_witness :
    (∃ img, latestImage (envC6 pattern2) = some img
      ∧ amiSearch envC6 ([pattern1] ++ pattern2 :: [pattern3])
          = Except.ok (img.imageId, img.name)
      ∧ img ∈ envC6 pattern2
      ∧ ∀ x ∈ envC6 pattern2, x.creationDate ≤ img.creationDate)
    ∧ ((∀ q ∈ patterns, envC6 q = []) →
        get_latest_ubuntu_ami envC6 = Except.error "No Ubuntu Server LTS AMI found") :=
  C6_image_fallback envC6 [pattern1] [pattern3] pattern2
    (by intro q hq; simp only [List.mem_singleton] at hq; subst hq; decide)
    (by decide)

theorem map_authorize_id (l : List SecurityGroup) (gid : String) (r : IngressRule)
    (h : ∀ g ∈ l, g.groupId ≠ gid) :
    l.map (fun g =>
      if g.groupId == gid then { g with ingress := g.ingress ++ [r] } else g) = l := by
  conv_rhs => rw [← List.map_id l]
  refine List.map_congr_left ?_
  intro g hg
  simp [beq_eq_false_iff_ne.mpr (h g hg)]

theorem create_sg_found (s : SGState) (g : SecurityGroup)
    (h : describe_security_groups s = some g) :
    create_security_group s = (g.groupId, s) := by
  simp [create_security_group, h]

/-- C8: the access-group provisioning is idempotent.  When a group with
the well-known name exists, its identifier is returned and the state is
untouched; otherwise exactly one group with the single TCP/22-from-anywhere
ingress rule is created and its fresh identifier returned; a second
consecutive call returns the same identifier and leaves the number of
groups with that name unchanged. -/
theorem C8_idempotent_access_group (s : SGState)
    (hfresh : ∀ g ∈ s.groups, g.groupId ≠ s.freshId) :
    (∀ g, describe_security_groups s = some g →
        create_security_group s = (g.groupId, s))
    ∧ (describe_security_groups s = none →
        (create_security_group s).1 = s.freshId
        ∧ (create_security_group s).2.groups
            = s.groups ++ [{ groupName := sgName, groupId := s.freshId
                             ingress := [sshRule] }]
        ∧ countSgName (create_security_group s).2 = 1)
    ∧ (create_security_group ((create_security_group s).2)).1
        = (create_security_group s).1
    ∧ countSgName (create_security_group ((create_security_group s).2)).2
        = countSgName (create_security_group s).2 := by
  have hnamefalse : describe_security_groups s = none →
      ∀ g ∈ s.groups, (g.groupName == sgName) = false := by
    intro hn g hg
    have := List.find?_eq_none.mp hn g hg
    simpa using this
  have hb : describe_security_groups s = none →
      (create_security_group s).1 = s.freshId
      ∧ (create_security_group s).2.groups
          = s.groups ++ [{ groupName := sgName, groupId := s.freshId
                           ingress := [sshRule] }] := by
    intro hn
    constructor
    · simp [create_security_group, hn]
    · simp only [create_security_group, hn, authorize_ingress, List.map_append]
      rw [map_authorize_id s.groups s.freshId sshRule hfresh]
      simp
  refine ⟨?_, ?_, ?_⟩
  · intro g hg
    exact create_sg_found s g hg
  · intro hn
    obtain ⟨hid, hgr⟩ := hb hn
    refine ⟨hid, hgr, ?_⟩
    have hfl : s.groups.filter (fun g => g.groupName == sgName) = [] :=
      List.filter_eq_nil_iff.mpr (fun g hg => by simp [hnamefalse hn g hg])
    simp [countSgName, hgr, List.filter_append, hfl]
  · cases hd : describe_security_groups s with
    | some g =>
      have h1 : create_security_group s = (g.groupId, s) := create_sg_found s g hd
      constructor
      · simp [h1]
      · simp [h1]
    | none =>
      obtain ⟨hid, hgr⟩ := hb hd
      have hd2 : describe_security_groups (create_security_group s).2
          = some { groupName := sgName, groupId := s.freshId
                   ingress := [sshRule] } := by
        simp only [describe_security_groups] at hd ⊢
        rw [hgr, List.find?_append, hd]
        simp
      have h2 := create_sg_found (create_security_group s).2 _ hd2
      constructor
      · rw [h2, hid]
      · rw [h2]

/-- Empty account state used as the C8 witness input. -/
def sgEmpty : SGState := { groups := [], freshId := "sg-1" }

/-- Witness for C8 on an empty account: the first call creates the group
with the single SSH rule, the second call returns the same identifier
and the group count stays at one. -/
theorem C8_idempotent_access_group_witness :
    (describe_security_groups sgEmpty = none →
      (create_security_group sgEmpty).1 = sgEmpty.freshId
      ∧ (create_security_group sgEmpty).2.groups
          = sgEmpty.groups ++ [{ groupName := sgName, groupId := sgEmpty.freshId
                                 ingress := [sshRule] }]
      ∧ countSgName (create_security_group sgEmpty).2 = 1)
    ∧ (create_security_group ((create_security_group sgEmpty).2)).1
        = (create_security_group sgEmpty).1
    ∧ countSgName (create_security_group ((create_security_group sgEmpty).2)).2
        = countSgName (create_security_group sgEmpty).2 := by
  have h := C8_idempotent_access_group sgEmpty (by intro g hg; simp [sgEmpty] at hg)
  exact ⟨h.2.1, h.2.2⟩

/-- C9: when the arguments contain more than one recognized command
token, the dispatcher prints the usage text, performs no action, and
the process exits with status 0, whatever the flows would do. -/
theorem C9_ambiguous_command (args : List String) (flowExit : Action → Nat)
    (h : 1 < (args.filter (fun x => commandTokens.contains (pyLower x))).length) :
    mainRun args flowExit = (Action.help, 0) := by
  cases args with
  | nil => simp at h
  | cons a rest =>
    have hgt : ((a :: rest).filter
        (fun x => commandTokens.contains (pyLower x))).length > 1 := h
    simp only [mainRun, dispatch, if_pos hgt]

/-- Witness for C9 with the two recognized tokens `list` and `create`. -/
theorem C9_ambiguous_command_witness :
    mainRun ["list", "create"] (fun _ => 1) = (Action.help, 0) :=
  C9_ambiguous_command ["list", "create"] (fun _ => 1) (by decide)

theorem sshConnect_proj (world : List Instance) (lf : FS) (iid : String)
    (displayed : List Instance) :
    (sshConnect world lf iid displayed).displayed = displayed
    ∧ (sshConnect world lf iid displayed).target = some iid := by
  unfold sshConnect
  repeat' split
  all_goals exact ⟨rfl, rfl⟩

/-- A running instance of a non-managed type: zero managed instances
are running in a world holding only this one. -/
def instOtherType : Instance :=
  { instanceId := "i-big", instanceType := "m5.large"
    state := InstState.running, publicIp := some "52.9.9.9"
    keyName := some "aws_ec2_free", nameTag := some "big-box" }

/-- C10 counterexample: in a world whose only running instance is of a
non-managed type, zero managed (`t3.micro`) instances are running, yet
`ssh` without an id does not report that none are running — it displays
that instance and proceeds with it, because the auto-select query
filters only on the running state, not on the managed type. -/
theorem C10_counterexample :
    [instOtherType].filter (fun i =>
        i.instanceType == "t3.micro" && i.state == InstState.running) = []
    ∧ (ssh_to_instance [instOtherType] [] none).outcome ≠ SshOutcome.noneRunning
    ∧ (ssh_to_instance [instOtherType] [] none).displayed = [instOtherType]
    ∧ (ssh_to_instance [instOtherType] [] none).target = some "i-big" := by
  decide

/-- C10 (amended): `ssh` without an instance id auto-selects among all
running instances regardless of instance type: when none is running it
reports so and stops with exit 0; otherwise the running instances are
displayed in the table format and the first one returned becomes the
target. -/
theorem C10_auto_select (world : List Instance) (lf : FS) (r : Instance)
    (rest : List Instance) :
    (world.filter (fun i => i.state == InstState.running) = [] →
      ssh_to_instance world lf none
        = { displayed := [], target := none
            outcome := SshOutcome.noneRunning, exitCode := 0 })
    ∧ (world.filter (fun i => i.state == InstState.running) = r :: rest →
      (ssh_to_instance world lf none).displayed = r :: rest
      ∧ (ssh_to_instance world lf none).target = some r.instanceId) := by
  constructor
  · intro h
    simp [ssh_to_instance, h]
  · intro h
    simp only [ssh_to_instance, h]
    exact sshConnect_proj world lf r.instanceId (r :: rest)

/-- Witness for C10: an empty world reports none running; a world with
one running instance displays it and targets it. -/
theorem C10_auto_select_witness :
    ssh_to_instance [] [] none
      = { displayed := [], target := none
          outcome := SshOutcome.noneRunning, exitCode := 0 }
    ∧ (ssh_to_instance [instRunning] [] none).displayed = [instRunning]
    ∧ (ssh_to_instance [instRunning] [] none).target = some instRunning.instanceId := by
  refine ⟨(C10_auto_select [] [] instRunning []).1 rfl, ?_⟩
  exact (C10_auto_select [instRunning] [] instRunning []).2 (by decide)

/-- A stopped instance: an `ssh` target that cannot be resolved. -/
def instStopped : Instance :=
  { instanceId := "i-1", instanceType := "t3.micro"
    state := InstState.stopped, publicIp := none
    keyName := some "aws_ec2_free", nameTag := none }

/-- C2 counterexample: `ssh` to a stopped instance stops with guidance
but the process exits with status 0, not a non-zero status as claimed. -/
theorem C2_counterexample :
    (ssh_to_instance [instStopped] [] (some "i-1")).outcome
        = SshOutcome.notRunning InstState.stopped
    ∧ (ssh_to_instance [instStopped] [] (some "i-1")).exitCode = 0 := by
  decide

/-- C2 (amended): when the `ssh` target cannot be resolved to a usable
connection (not running, no public address, no key pair, or local key
file missing) the operation stops with guidance and the process exits
with status 0; only the provider error for an unknown instance id makes
it exit non-zero (status 1). -/
theorem C2_amended_resource_stops_exit_zero (world : List Instance) (lf : FS)
    (iid : Option String) :
    ((ssh_to_instance world lf iid).outcome ≠ SshOutcome.notFound →
      (ssh_to_instance world lf iid).exitCode = 0)
    ∧ ((ssh_to_instance world lf iid).outcome = SshOutcome.notFound →
      (ssh_to_instance world lf iid).exitCode = 1) := by
  unfold ssh_to_instance sshConnect
  repeat' split
  all_goals simp

/-- Witness for the amended C2 on a stopped target. -/
theorem C2_amended_witness :
    ((ssh_to_instance [instStopped] [] (some "i-1")).outcome ≠ SshOutcome.notFound
      ∧ (ssh_to_instance [instStopped] [] (some "i-1")).exitCode = 0)
    ∧ ((ssh_to_instance [] [] (some "i-404")).outcome = SshOutcome.notFound
      ∧ (ssh_to_instance [] [] (some "i-404")).exitCode = 1) := by
  constructor
  · exact ⟨by decide,
      (C2_amended_resource_stops_exit_zero [instStopped] [] (some "i-1")).1 (by decide)⟩
  · exact ⟨by decide,
      (C2_amended_resource_stops_exit_zero [] [] (some "i-404")).2 (by decide)⟩

end AwsFree
